import Mathlib

/-!
Shallow embedding of the wikidata question-answering component (`Guru` in
`wikidata.py`): a router (`ask`) over two resolvers (`get_age`,
`get_population`) that consume SPARQL query results.  External collaborators
(the SPARQL endpoint, `dateutil.parser.parse`, `datetime.date.today`) are
injected as function or value parameters.  Machine strings are modelled as
Lean strings; the Python string methods used by the source (`lower`,
`replace`, `strip`, `title`, `in`) are re-implemented below on `List Char`,
restricted to the ASCII behaviour the source relies on.
-/

namespace Wikidata

/-- A calendar date as used by `datetime.date`: year, month (1-12),
day (1-31).  Fields are unbounded integers; validity is a separate
predicate (`validDate`). -/
structure Date where
  year : Int
  month : Int
  day : Int
deriving Repr, DecidableEq

/-- Python `date` comparison `a < b` (lexicographic on year, month, day). -/
def dateLtB (a b : Date) : Bool :=
  decide (a.year < b.year) ||
    (decide (a.year = b.year) &&
      (decide (a.month < b.month) ||
        (decide (a.month = b.month) && decide (a.day < b.day))))

/-- Python `date` comparison `a <= b`. -/
def dateLeB (a b : Date) : Bool := !(dateLtB b a)

/-- Gregorian leap-year rule (`calendar.isleap`). -/
def isLeapYear (y : Int) : Bool :=
  y % 4 == 0 && (y % 100 != 0 || y % 400 == 0)

/-- Number of days of month `m` of year `y` (`calendar.monthrange(y, m)[1]`). -/
def daysInMonth (y m : Int) : Int :=
  if m = 2 then (if isLeapYear y then 29 else 28)
  else if m = 4 ∨ m = 6 ∨ m = 9 ∨ m = 11 then 30
  else 31

/-- The date is one `datetime.date` can represent: month in 1–12, day within
the month. -/
def validDate (d : Date) : Prop :=
  1 ≤ d.month ∧ d.month ≤ 12 ∧ 1 ≤ d.day ∧ d.day ≤ daysInMonth d.year d.month

instance (d : Date) : Decidable (validDate d) := by
  unfold validDate; infer_instance

/-- `d + relativedelta(months=k)`: shift by `k` months, capping the day at
the length of the target month (dateutil `relativedelta.__radd__`). -/
def addMonths (d : Date) (k : Int) : Date :=
  let total := d.year * 12 + (d.month - 1) + k
  ⟨total / 12, total % 12 + 1,
    min d.day (daysInMonth (total / 12) (total % 12 + 1))⟩

/-- Total month count of `relativedelta(dt1, dt2)` before the year/month
split.  dateutil seeds the count with the raw year/month difference and then
corrects it by comparing `dt2` shifted by that count against `dt1`; the
correction loop can fire at most once, so it is a single conditional here. -/
def relMonths (dt1 dt2 : Date) : Int :=
  let months := 12 * (dt1.year - dt2.year) + (dt1.month - dt2.month)
  let dtm := addMonths dt2 months
  if dateLtB dt1 dt2 then
    (if dateLtB dtm dt1 then months + 1 else months)
  else
    (if dateLtB dt1 dtm then months - 1 else months)

/-- `relativedelta(dt1, dt2).years`: the month count divided by 12,
truncating toward zero (dateutil `_fix` uses sign-and-divmod). -/
def relYears (dt1 dt2 : Date) : Int :=
  let m := relMonths dt1 dt2
  if m < 0 then -(((-m).toNat / 12 : Nat) : Int) else ((m.toNat / 12 : Nat) : Int)

/-- The description of the age computation given by the spec: the whole-year
difference between today and the birth date, minus one when the birthday
anniversary of the current year (the birth month/day placed in the current
year, capped at the length of the target month) has not yet been reached. -/
def specWholeYearDiff (today dob : Date) : Int :=
  let anniversary : Date :=
    ⟨today.year, dob.month, min dob.day (daysInMonth today.year dob.month)⟩
  (today.year - dob.year) - (if dateLtB today anniversary then 1 else 0)

/-! ### Python string primitives (ASCII fragment) -/

/-- Python `str.lower` (ASCII letters). -/
def pyLower (s : String) : String := ⟨s.data.map Char.toLower⟩

/-- `needle in haystack` on character lists. -/
def listHasSub (h n : List Char) : Bool :=
  match h with
  | [] => n.isEmpty
  | c :: t => n.isPrefixOf (c :: t) || listHasSub t n

/-- Python substring test `n in h`. -/
def pyIn (n h : String) : Bool := listHasSub h.data n.data

/-- Left-to-right, non-overlapping replacement of every occurrence of `old`
by `new`, fuelled by the haystack length (the fuel never runs out because
each step consumes at least one character).  An empty `old` leaves the list
unchanged, which agrees with Python for the empty `new` the source uses. -/
def listReplaceAux (fuel : Nat) (h old new : List Char) : List Char :=
  match fuel, h with
  | 0, rest => rest
  | _ + 1, [] => []
  | fuel + 1, c :: t =>
    if !old.isEmpty && old.isPrefixOf (c :: t) then
      new ++ listReplaceAux fuel (t.drop (old.length - 1)) old new
    else
      c :: listReplaceAux fuel t old new

/-- Python `s.replace(old, new)`. -/
def pyReplace (s old new : String) : String :=
  ⟨listReplaceAux (s.data.length + 1) s.data old.data new.data⟩

/-- Python whitespace stripped by `str.strip()`. -/
def pySpaceChar (c : Char) : Bool :=
  c == ' ' || c == '\t' || c == '\n' || c == '\r' || c == '\x0b' || c == '\x0c'

/-- Python `str.strip()`: drop leading and trailing whitespace. -/
def pyStrip (s : String) : String :=
  ⟨((s.data.dropWhile pySpaceChar).reverse.dropWhile pySpaceChar).reverse⟩

/-- Python `str.title()` (ASCII): uppercase a letter that follows a
non-letter, lowercase the rest. -/
def listTitle (l : List Char) (prevCased : Bool) : List Char :=
  match l with
  | [] => []
  | c :: t =>
    if c.isAlpha then
      (if prevCased then c.toLower else c.toUpper) :: listTitle t true
    else
      c :: listTitle t false

/-- Python `str.title()`. -/
def pyTitle (s : String) : String := ⟨listTitle s.data false⟩

/-! ### Query results and errors -/

/-- One result row: field name to the text of the `value` sub-field of that
field (the source only ever reads `binding[field]["value"]`, so the
one-level `value` wrapper is collapsed). -/
abbrev Binding := List (String × String)

/-- `field in binding.keys()`. -/
def hasKey (b : Binding) (k : String) : Bool := b.any fun p => p.1 == k

/-- `binding[field]["value"]` as an optional lookup (first matching key). -/
def getValue (b : Binding) (k : String) : Option String :=
  (b.find? fun p => p.1 == k).map fun p => p.2

/-- The `results.bindings` sequence of the SPARQL JSON payload. -/
structure SparqlResults where
  bindings : List Binding
deriving Repr, DecidableEq

/-- The exceptions the source raises or lets escape. -/
inductive PyError where
  | indexError : String → PyError
  | valueError : String → PyError
  | keyError : String → PyError
deriving Repr, DecidableEq

/-- Outcome of a call together with the queries it sent to the external
SPARQL client, in order. -/
structure Traced (α : Type) where
  queries : List String
  result : Except PyError α
deriving Repr

/-- `Guru.person_query`: the SPARQL text, with the subject substituted
verbatim. -/
def person_query (person : String) : String :=
  "SELECT DISTINCT ?person ?personLabel ?date_of_birth ?date_of_death WHERE \x7b\n                    ?person wdt:P31 wd:Q5;\n                    wdt:P106 wd:Q82955;\n                    wdt:P569 ?date_of_birth;\n                    ?label \"" ++
    person ++
    "\"@en.\n                    OPTIONAL \x7b\n                    ?person wdt:P570 ?date_of_death.    \n                    \x7d\n                    SERVICE wikibase:label \x7b bd:serviceParam wikibase:language \"en\". \x7d\n                    \x7d"

/-- `Guru.city_query`: the SPARQL text, with the subject substituted
verbatim. -/
def city_query (city : String) : String :=
  "SELECT DISTINCT ?city ?cityLabel ?population WHERE \x7b \n                    ?city wdt:P31 wd:Q5119; \n                    ?label \"" ++
    city ++
    "\"@en. \n                    OPTIONAL \x7b ?city wdt:P1082 ?population. \x7d \n                    SERVICE wikibase:label \x7b bd:serviceParam wikibase:language \"en\". \x7d\n                    \x7d"

/-- `Guru.run_query`: delegate the query text to the external client. -/
def run_query (client : String → SparqlResults) (query : String) : SparqlResults :=
  client query

/-- `Guru.get_age`.  `client` is the SPARQL endpoint, `parseDate` the
external `dateutil.parser.parse(...).date()` collaborator, `today` the value
of `datetime.date.today()`.  The query built from the subject is recorded in
the trace. -/
def get_age (client : String → SparqlResults) (parseDate : String → Date)
    (today : Date) (person : String) : Traced String :=
  let query := person_query person
  let results := run_query client query
  let bindings_length := results.bindings.length
  ⟨[query],
    if bindings_length = 0 then
      .error (.indexError (person ++ " has not been found"))
    else if bindings_length > 1 then
      .error (.valueError ("Ambiguous result. " ++ toString bindings_length ++ " records returned"))
    else if hasKey (results.bindings.headD []) "date_of_death" then
      .error (.valueError (person ++ " is dead"))
    else
      match getValue (results.bindings.headD []) "date_of_birth" with
      | none => .error (.keyError "date_of_birth")
      | some dob_result =>
        let dob := parseDate dob_result
        let age := toString (relYears today dob)
        .ok age⟩

/-- `Guru.get_population`.  A missing `population` field surfaces as the
own `KeyError` of the dictionary lookup, untouched. -/
def get_population (client : String → SparqlResults) (city : String) : Traced String :=
  let query := city_query city
  let results := run_query client query
  let bindings_length := results.bindings.length
  ⟨[query],
    if bindings_length = 0 then
      .error (.indexError (city ++ " has not been found"))
    else if bindings_length > 1 then
      .error (.valueError ("Ambiguous result. " ++ toString bindings_length ++ " records returned"))
    else
      match getValue (results.bindings.headD []) "population" with
      | none => .error (.keyError "population")
      | some population => .ok population⟩

/-- `Guru.ask`: route a free-text question to one of the two resolvers. -/
def ask (client : String → SparqlResults) (parseDate : String → Date)
    (today : Date) (question : String) : Traced String :=
  let age_question := "how old is "
  let population_question := "what is the population of "
  let question_lowercase := pyLower question
  if pyIn age_question question_lowercase then
    let person := pyReplace question_lowercase age_question ""
    if person == "" || pyStrip person == "" then
      ⟨[], .error (.valueError "Missing person\x27s name")⟩
    else
      get_age client parseDate today (pyTitle (pyStrip person))
  else if pyIn population_question question_lowercase then
    let city := pyReplace question_lowercase population_question ""
    if city == "" || pyStrip city == "" then
      ⟨[], .error (.valueError "Missing city name")⟩
    else
      get_population client (pyTitle (pyStrip city))
  else
    ⟨[], .error (.valueError ("Invalid question: " ++ question))⟩

/-! ### Deterministic stand-ins for the external collaborators -/

/-- A fixed date for injected clocks and parsers. -/
def epochDate : Date := ⟨1970, 1, 1⟩

/-- A date parser returning a fixed date for every input. -/
def parseFixed (d : Date) : String → Date := fun _ => d

/-- An endpoint returning no binding for any query. -/
def emptyClient : String → SparqlResults := fun _ => ⟨[]⟩

/-- An endpoint returning two bindings for any query. -/
def pairClient : String → SparqlResults :=
  fun _ => ⟨[[("personLabel", "A")], [("personLabel", "B")]]⟩

/-- One binding, birth date only. -/
def blairClient : String → SparqlResults :=
  fun _ => ⟨[[("date_of_birth", "1953-05-06T00:00:00Z")]]⟩

/-- One binding carrying a death date. -/
def lincolnClient : String → SparqlResults :=
  fun _ => ⟨[[("date_of_birth", "1809-02-12T00:00:00Z"),
              ("date_of_death", "1865-04-15T00:00:00Z")]]⟩

/-- One binding with a population figure. -/
def londonClient : String → SparqlResults :=
  fun _ => ⟨[[("population", "8799728")]]⟩

/-- One binding without a population field. -/
def noPopulationClient : String → SparqlResults :=
  fun _ => ⟨[[("cityLabel", "London")]]⟩

/-- One binding whose birth date lies in the future. -/
def futureClient : String → SparqlResults :=
  fun _ => ⟨[[("date_of_birth", "2026-01-01T00:00:00Z")]]⟩

/-! ### Helper lemmas -/

theorem dateLtB_eq (a b : Date) : dateLtB a b = true ↔
    (a.year < b.year ∨ (a.year = b.year ∧
      (a.month < b.month ∨ (a.month = b.month ∧ a.day < b.day)))) := by
  simp [dateLtB]

theorem addMonths_diff (today dob : Date) (h1 : 1 ≤ today.month) (h2 : today.month ≤ 12) :
    addMonths dob (12 * (today.year - dob.year) + (today.month - dob.month)) =
      ⟨today.year, today.month, min dob.day (daysInMonth today.year today.month)⟩ := by
  simp only [addMonths]
  have e0 : dob.year * 12 + (dob.month - 1) +
        (12 * (today.year - dob.year) + (today.month - dob.month))
      = today.year * 12 + (today.month - 1) := by ring
  rw [e0]
  have e1 : (today.year * 12 + (today.month - 1)) / 12 = today.year := by omega
  have e2 : (today.year * 12 + (today.month - 1)) % 12 + 1 = today.month := by omega
  rw [e1, e2]

theorem relYears_spec (today dob : Date) (ht : validDate today) (hd : validDate dob)
    (hle : dateLeB dob today = true) :
    relYears today dob = specWholeYearDiff today dob ∧ 0 ≤ relYears today dob := by
  obtain ⟨htm1, htm2, htd1, htd2⟩ := ht
  obtain ⟨hdm1, hdm2, hdd1, hdd2⟩ := hd
  have hlt : dateLtB today dob = false := by
    unfold dateLeB at hle
    simpa using hle
  have hle' : dob.year < today.year ∨ (dob.year = today.year ∧
      (dob.month < today.month ∨ (dob.month = today.month ∧ dob.day ≤ today.day))) := by
    rw [Bool.eq_false_iff] at hlt
    rw [Ne, dateLtB_eq] at hlt
    omega
  simp only [relYears, relMonths]
  rw [addMonths_diff today dob htm1 htm2, hlt]
  simp only [Bool.false_eq_true, if_false]
  rw [show (dateLtB today
        ⟨today.year, today.month, min dob.day (daysInMonth today.year today.month)⟩)
      = decide (today.day < min dob.day (daysInMonth today.year today.month)) from by
    simp [dateLtB]]
  simp only [specWholeYearDiff]
  rw [show (dateLtB today
        ⟨today.year, dob.month, min dob.day (daysInMonth today.year dob.month)⟩)
      = decide (today.month < dob.month ∨ (today.month = dob.month ∧
          today.day < min dob.day (daysInMonth today.year dob.month))) from by
    simp [dateLtB]]
  by_cases hmm : dob.month = today.month
  · rw [hmm]
    generalize daysInMonth today.year today.month = D at htd2 ⊢
    simp only [decide_eq_true_eq, lt_self_iff_false, false_or, eq_self_iff_true, true_and]
    rcases le_total dob.day D with hdD | hdD
    · rw [min_eq_left hdD]
      split_ifs with a b c <;> omega
    · rw [min_eq_right hdD]
      split_ifs with a b c <;> omega
  · generalize daysInMonth today.year today.month = D at htd2 ⊢
    generalize daysInMonth today.year dob.month = D2
    simp only [decide_eq_true_eq]
    rcases le_total dob.day D with hdD | hdD <;> rcases le_total dob.day D2 with hd2 | hd2
    · rw [min_eq_left hdD, min_eq_left hd2]
      split_ifs with a b c <;> omega
    · rw [min_eq_left hdD, min_eq_right hd2]
      split_ifs with a b c <;> omega
    · rw [min_eq_right hdD, min_eq_left hd2]
      split_ifs with a b c <;> omega
    · rw [min_eq_right hdD, min_eq_right hd2]
      split_ifs with a b c <;> omega

theorem ask_age_branch (client : String → SparqlResults) (parseDate : String → Date)
    (today : Date) (q : String) (h : pyIn "how old is " (pyLower q) = true) :
    ask client parseDate today q =
      if pyStrip (pyReplace (pyLower q) "how old is " "") = "" then
        ⟨[], .error (.valueError "Missing person\x27s name")⟩
      else
        get_age client parseDate today
          (pyTitle (pyStrip (pyReplace (pyLower q) "how old is " ""))) := by
  by_cases hs : pyStrip (pyReplace (pyLower q) "how old is " "") = ""
  · rw [if_pos hs]
    simp [ask, h, hs]
  · rw [if_neg hs]
    have hp : ¬ pyReplace (pyLower q) "how old is " "" = "" := by
      intro e
      rw [e] at hs
      exact hs rfl
    simp [ask, h, hs, hp]

theorem ask_pop_branch (client : String → SparqlResults) (parseDate : String → Date)
    (today : Date) (q : String)
    (h1 : pyIn "how old is " (pyLower q) = false)
    (h2 : pyIn "what is the population of " (pyLower q) = true) :
    ask client parseDate today q =
      if pyStrip (pyReplace (pyLower q) "what is the population of " "") = "" then
        ⟨[], .error (.valueError "Missing city name")⟩
      else
        get_population client
          (pyTitle (pyStrip (pyReplace (pyLower q) "what is the population of " ""))) := by
  by_cases hs : pyStrip (pyReplace (pyLower q) "what is the population of " "") = ""
  · rw [if_pos hs]
    simp [ask, h1, h2, hs]
  · rw [if_neg hs]
    have hp : ¬ pyReplace (pyLower q) "what is the population of " "" = "" := by
      intro e
      rw [e] at hs
      exact hs rfl
    simp [ask, h1, h2, hs, hp]

/-! ### Claims -/

/-- Claim C1: for every query result consumed by either resolver, zero
bindings yields the not-found failure naming the subject, and more than one
binding yields the ambiguous-result failure citing the exact binding count;
no answer is produced, and the messages are identical for both question
kinds. -/
theorem resolver_cardinality_errors (client : String → SparqlResults)
    (parseDate : String → Date) (today : Date) (subject : String) :
    ((client (person_query subject)).bindings.length = 0 →
        get_age client parseDate today subject
          = ⟨[person_query subject], .error (.indexError (subject ++ " has not been found"))⟩)
      ∧ (1 < (client (person_query subject)).bindings.length →
        get_age client parseDate today subject
          = ⟨[person_query subject], .error (.valueError ("Ambiguous result. "
              ++ toString (client (person_query subject)).bindings.length
              ++ " records returned"))⟩)
      ∧ ((client (city_query subject)).bindings.length = 0 →
        get_population client subject
          = ⟨[city_query subject], .error (.indexError (subject ++ " has not been found"))⟩)
      ∧ (1 < (client (city_query subject)).bindings.length →
        get_population client subject
          = ⟨[city_query subject], .error (.valueError ("Ambiguous result. "
              ++ toString (client (city_query subject)).bindings.length
              ++ " records returned"))⟩) := by
  refine ⟨fun h => ?_, fun h => ?_, fun h => ?_, fun h => ?_⟩
  · simp [get_age, run_query, h]
  · have h0 : ¬ (client (person_query subject)).bindings.length = 0 := by omega
    simp [get_age, run_query, h0, h]
  · simp [get_population, run_query, h]
  · have h0 : ¬ (client (city_query subject)).bindings.length = 0 := by omega
    simp [get_population, run_query, h0, h]

theorem resolver_cardinality_errors_witness :
    get_age emptyClient (parseFixed epochDate) ⟨2024, 1, 1⟩ "Narnia"
        = ⟨[person_query "Narnia"], .error (.indexError ("Narnia" ++ " has not been found"))⟩
      ∧ get_age pairClient (parseFixed epochDate) ⟨2024, 1, 1⟩ "Lincoln"
        = ⟨[person_query "Lincoln"], .error (.valueError ("Ambiguous result. "
            ++ toString (pairClient (person_query "Lincoln")).bindings.length
            ++ " records returned"))⟩
      ∧ get_population emptyClient "Narnia"
        = ⟨[city_query "Narnia"], .error (.indexError ("Narnia" ++ " has not been found"))⟩
      ∧ get_population pairClient "Lincoln"
        = ⟨[city_query "Lincoln"], .error (.valueError ("Ambiguous result. "
            ++ toString (pairClient (city_query "Lincoln")).bindings.length
            ++ " records returned"))⟩ :=
  ⟨(resolver_cardinality_errors emptyClient (parseFixed epochDate) ⟨2024, 1, 1⟩ "Narnia").1 rfl,
   (resolver_cardinality_errors pairClient (parseFixed epochDate) ⟨2024, 1, 1⟩ "Lincoln").2.1
     (by decide),
   (resolver_cardinality_errors emptyClient (parseFixed epochDate) ⟨2024, 1, 1⟩ "Narnia").2.2.1 rfl,
   (resolver_cardinality_errors pairClient (parseFixed epochDate) ⟨2024, 1, 1⟩ "Lincoln").2.2.2
     (by decide)⟩

/-- Claim C2 (amended): for a result with exactly one binding carrying no
date-of-death field, provided the parsed date-of-birth is a valid calendar
date on or before the (valid) current date, `get_age` returns the string of
a non-negative integer equal to the calendar-aware whole-year difference
between the current date and the parsed date-of-birth; a birthday
anniversary not yet reached in the current year does not count. -/
theorem age_single_binding_value (client : String → SparqlResults)
    (parseDate : String → Date) (today : Date) (subject : String)
    (b : Binding) (dobStr : String)
    (hb : (client (person_query subject)).bindings = [b])
    (hdod : hasKey b "date_of_death" = false)
    (hdob : getValue b "date_of_birth" = some dobStr)
    (hvt : validDate today) (hvd : validDate (parseDate dobStr))
    (hle : dateLeB (parseDate dobStr) today = true) :
    (get_age client parseDate today subject).result
        = .ok (toString (specWholeYearDiff today (parseDate dobStr)))
      ∧ 0 ≤ specWholeYearDiff today (parseDate dobStr) := by
  obtain ⟨heq, hpos⟩ := relYears_spec today (parseDate dobStr) hvt hvd hle
  rw [heq] at hpos
  refine ⟨?_, hpos⟩
  simp [get_age, run_query, hb, hdod, hdob, heq]

theorem age_single_binding_value_witness :
    (get_age blairClient (parseFixed ⟨1953, 5, 6⟩) ⟨2024, 5, 1⟩ "Tony Blair").result
        = .ok (toString (specWholeYearDiff ⟨2024, 5, 1⟩ ⟨1953, 5, 6⟩))
      ∧ 0 ≤ specWholeYearDiff ⟨2024, 5, 1⟩ ⟨1953, 5, 6⟩ :=
  age_single_binding_value blairClient (parseFixed ⟨1953, 5, 6⟩) ⟨2024, 5, 1⟩ "Tony Blair"
    [("date_of_birth", "1953-05-06T00:00:00Z")] "1953-05-06T00:00:00Z"
    rfl rfl rfl (by decide) (by decide) (by decide)

theorem age_nonnegative_counterexample :
    (get_age futureClient (parseFixed ⟨2026, 1, 1⟩) ⟨2024, 5, 1⟩ "Futura").result = .ok "-1"
      ∧ toString (specWholeYearDiff ⟨2024, 5, 1⟩ ⟨2026, 1, 1⟩) = "-2"
      ∧ specWholeYearDiff ⟨2024, 5, 1⟩ ⟨2026, 1, 1⟩ < 0 :=
  ⟨rfl, rfl, by decide⟩

/-- Claim C3: the router matches the two fixed prefixes case-insensitively
and as substrings anywhere in the lowercased input: an input containing the
age prefix is handled by the age branch, an input containing only the
population prefix by the population branch; in particular
"What is the population of Paris" routes to the population resolver. -/
theorem router_substring_case_insensitive (client : String → SparqlResults)
    (parseDate : String → Date) (today : Date) :
    (∀ q, pyIn "how old is " (pyLower q) = true →
        ask client parseDate today q =
          if pyStrip (pyReplace (pyLower q) "how old is " "") = "" then
            ⟨[], .error (.valueError "Missing person\x27s name")⟩
          else
            get_age client parseDate today
              (pyTitle (pyStrip (pyReplace (pyLower q) "how old is " ""))))
      ∧ (∀ q, pyIn "how old is " (pyLower q) = false →
          pyIn "what is the population of " (pyLower q) = true →
          ask client parseDate today q =
            if pyStrip (pyReplace (pyLower q) "what is the population of " "") = "" then
              ⟨[], .error (.valueError "Missing city name")⟩
            else
              get_population client
                (pyTitle (pyStrip (pyReplace (pyLower q) "what is the population of " ""))))
      ∧ ask client parseDate today "What is the population of Paris"
          = get_population client "Paris" := by
  refine ⟨fun q h => ask_age_branch client parseDate today q h,
    fun q h1 h2 => ask_pop_branch client parseDate today q h1 h2, ?_⟩
  rw [ask_pop_branch client parseDate today "What is the population of Paris"
    (by decide) (by decide)]
  rw [if_neg (by decide)]
  rw [show pyTitle (pyStrip (pyReplace (pyLower "What is the population of Paris")
      "what is the population of " "")) = "Paris" from by decide]

theorem router_substring_case_insensitive_witness :
    ask emptyClient (parseFixed epochDate) ⟨2024, 1, 1⟩ "hey, how old is obama"
        = (if pyStrip (pyReplace (pyLower "hey, how old is obama") "how old is " "") = "" then
            ⟨[], .error (.valueError "Missing person\x27s name")⟩
          else
            get_age emptyClient (parseFixed epochDate) ⟨2024, 1, 1⟩
              (pyTitle (pyStrip (pyReplace (pyLower "hey, how old is obama") "how old is " ""))))
      ∧ ask emptyClient (parseFixed epochDate) ⟨2024, 1, 1⟩ "please what is the population of london"
        = (if pyStrip (pyReplace (pyLower "please what is the population of london")
              "what is the population of " "") = "" then
            ⟨[], .error (.valueError "Missing city name")⟩
          else
            get_population emptyClient
              (pyTitle (pyStrip (pyReplace (pyLower "please what is the population of london")
                "what is the population of " "")))) :=
  ⟨(router_substring_case_insensitive emptyClient (parseFixed epochDate) ⟨2024, 1, 1⟩).1
      "hey, how old is obama" (by decide),
   (router_substring_case_insensitive emptyClient (parseFixed epochDate) ⟨2024, 1, 1⟩).2.1
      "please what is the population of london" (by decide) (by decide)⟩

/-- Claim C4: an age query whose result has exactly one binding carrying a
date-of-death field fails with the subject-deceased message, whatever the
injected date parser does (the date-of-birth field is never parsed). -/
theorem age_deceased_single_binding (client : String → SparqlResults)
    (today : Date) (subject : String) (b : Binding)
    (hb : (client (person_query subject)).bindings = [b])
    (hd : hasKey b "date_of_death" = true) :
    ∀ parseDate : String → Date,
      get_age client parseDate today subject
        = ⟨[person_query subject], .error (.valueError (subject ++ " is dead"))⟩ := by
  intro parseDate
  simp [get_age, run_query, hb, hd]

theorem age_deceased_single_binding_witness :
    get_age lincolnClient (parseFixed epochDate) ⟨2024, 1, 1⟩ "Abraham Lincoln"
      = ⟨[person_query "Abraham Lincoln"],
          .error (.valueError ("Abraham Lincoln" ++ " is dead"))⟩ :=
  age_deceased_single_binding lincolnClient ⟨2024, 1, 1⟩ "Abraham Lincoln"
    [("date_of_birth", "1809-02-12T00:00:00Z"), ("date_of_death", "1865-04-15T00:00:00Z")]
    rfl rfl (parseFixed epochDate)

/-- Claim C5: a population query whose result has exactly one binding
returns the population value as text; when the population field is absent,
the field access fails with the plain key error, which is not one of the
custom error conditions and reaches the `ask` caller unchanged. -/
theorem population_single_binding (client : String → SparqlResults)
    (parseDate : String → Date) (today : Date) (subject : String) (b : Binding)
    (hb : (client (city_query subject)).bindings = [b]) :
    (∀ popv, getValue b "population" = some popv →
        (get_population client subject).result = .ok popv)
      ∧ (getValue b "population" = none →
          (get_population client subject).result = .error (.keyError "population")
            ∧ ∀ msg, (Except.error (PyError.keyError "population") : Except PyError String)
                  ≠ .error (.valueError msg)
                ∧ (Except.error (PyError.keyError "population") : Except PyError String)
                  ≠ .error (.indexError msg))
      ∧ (∀ q, pyIn "how old is " (pyLower q) = false →
          pyIn "what is the population of " (pyLower q) = true →
          pyTitle (pyStrip (pyReplace (pyLower q) "what is the population of " "")) = subject →
          pyStrip (pyReplace (pyLower q) "what is the population of " "") ≠ "" →
          (ask client parseDate today q).result = (get_population client subject).result) := by
  refine ⟨fun popv hp => ?_, fun hn => ⟨?_, fun msg => ⟨by simp, by simp⟩⟩, ?_⟩
  · simp [get_population, run_query, hb, hp]
  · simp [get_population, run_query, hb, hn]
  · intro q h1 h2 hsub hne
    rw [ask_pop_branch client parseDate today q h1 h2, if_neg hne, hsub]

theorem population_single_binding_witness :
    (get_population londonClient "London").result = .ok "8799728"
      ∧ (get_population noPopulationClient "London").result = .error (.keyError "population")
      ∧ (ask noPopulationClient (parseFixed epochDate) ⟨2024, 1, 1⟩
          "what is the population of london").result
        = (get_population noPopulationClient "London").result :=
  ⟨(population_single_binding londonClient (parseFixed epochDate) ⟨2024, 1, 1⟩ "London"
      [("population", "8799728")] rfl).1 "8799728" rfl,
   ((population_single_binding noPopulationClient (parseFixed epochDate) ⟨2024, 1, 1⟩ "London"
      [("cityLabel", "London")] rfl).2.1 rfl).1,
   (population_single_binding noPopulationClient (parseFixed epochDate) ⟨2024, 1, 1⟩ "London"
      [("cityLabel", "London")] rfl).2.2 "what is the population of london"
      (by decide) (by decide) (by decide) (by decide)⟩

/-- Claim C6: for an input matching a prefix, the subject handed to the
resolver is exactly the lowercased input with every occurrence of the prefix
phrase removed, surrounding whitespace trimmed, and the remainder
title-cased. -/
theorem subject_normalization (client : String → SparqlResults)
    (parseDate : String → Date) (today : Date) (q : String) :
    (pyIn "how old is " (pyLower q) = true →
        pyStrip (pyReplace (pyLower q) "how old is " "") ≠ "" →
        ask client parseDate today q
          = get_age client parseDate today
              (pyTitle (pyStrip (pyReplace (pyLower q) "how old is " ""))))
      ∧ (pyIn "how old is " (pyLower q) = false →
          pyIn "what is the population of " (pyLower q) = true →
          pyStrip (pyReplace (pyLower q) "what is the population of " "") ≠ "" →
          ask client parseDate today q
            = get_population client
                (pyTitle (pyStrip (pyReplace (pyLower q) "what is the population of " "")))) := by
  constructor
  · intro h hne
    rw [ask_age_branch client parseDate today q h, if_neg hne]
  · intro h1 h2 hne
    rw [ask_pop_branch client parseDate today q h1 h2, if_neg hne]

theorem subject_normalization_witness :
    ask emptyClient (parseFixed epochDate) ⟨2024, 1, 1⟩ "HOW OLD IS  tony   blair "
        = get_age emptyClient (parseFixed epochDate) ⟨2024, 1, 1⟩
            (pyTitle (pyStrip (pyReplace (pyLower "HOW OLD IS  tony   blair ") "how old is " "")))
      ∧ ask emptyClient (parseFixed epochDate) ⟨2024, 1, 1⟩ "What Is The Population Of  PARIS"
        = get_population emptyClient
            (pyTitle (pyStrip (pyReplace (pyLower "What Is The Population Of  PARIS")
              "what is the population of " ""))) :=
  ⟨(subject_normalization emptyClient (parseFixed epochDate) ⟨2024, 1, 1⟩
      "HOW OLD IS  tony   blair ").1 (by decide) (by decide),
   (subject_normalization emptyClient (parseFixed epochDate) ⟨2024, 1, 1⟩
      "What Is The Population Of  PARIS").2 (by decide) (by decide) (by decide)⟩

/-- Claim C7 (amended): a call to `ask` that dispatches to a resolver (a
prefix matches and the trimmed subject is nonempty) issues exactly one
outbound query, namely the one built from the extracted subject; a call
rejected by the router (missing subject or unrecognized question) issues
none; no call ever issues more than one. -/
theorem query_count_per_ask (client : String → SparqlResults)
    (parseDate : String → Date) (today : Date) (q : String) :
    (ask client parseDate today q).queries.length ≤ 1
      ∧ (pyIn "how old is " (pyLower q) = true →
          pyStrip (pyReplace (pyLower q) "how old is " "") ≠ "" →
          (ask client parseDate today q).queries
            = [person_query (pyTitle (pyStrip (pyReplace (pyLower q) "how old is " "")))])
      ∧ (pyIn "how old is " (pyLower q) = false →
          pyIn "what is the population of " (pyLower q) = true →
          pyStrip (pyReplace (pyLower q) "what is the population of " "") ≠ "" →
          (ask client parseDate today q).queries
            = [city_query (pyTitle (pyStrip
                (pyReplace (pyLower q) "what is the population of " "")))])
      ∧ (pyIn "how old is " (pyLower q) = true →
          pyStrip (pyReplace (pyLower q) "how old is " "") = "" →
          (ask client parseDate today q).queries = [])
      ∧ (pyIn "how old is " (pyLower q) = false →
          pyIn "what is the population of " (pyLower q) = true →
          pyStrip (pyReplace (pyLower q) "what is the population of " "") = "" →
          (ask client parseDate today q).queries = [])
      ∧ (pyIn "how old is " (pyLower q) = false →
          pyIn "what is the population of " (pyLower q) = false →
          (ask client parseDate today q).queries = []) := by
  have hage : ∀ h : pyIn "how old is " (pyLower q) = true,
      ∀ hne : pyStrip (pyReplace (pyLower q) "how old is " "") ≠ "",
      (ask client parseDate today q).queries
        = [person_query (pyTitle (pyStrip (pyReplace (pyLower q) "how old is " "")))] := by
    intro h hne
    rw [ask_age_branch client parseDate today q h, if_neg hne]
    rfl
  have hpop : ∀ h1 : pyIn "how old is " (pyLower q) = false,
      ∀ h2 : pyIn "what is the population of " (pyLower q) = true,
      ∀ hne : pyStrip (pyReplace (pyLower q) "what is the population of " "") ≠ "",
      (ask client parseDate today q).queries
        = [city_query (pyTitle (pyStrip
            (pyReplace (pyLower q) "what is the population of " "")))] := by
    intro h1 h2 hne
    rw [ask_pop_branch client parseDate today q h1 h2, if_neg hne]
    rfl
  have hagee : ∀ h : pyIn "how old is " (pyLower q) = true,
      ∀ he : pyStrip (pyReplace (pyLower q) "how old is " "") = "",
      (ask client parseDate today q).queries = [] := by
    intro h he
    rw [ask_age_branch client parseDate today q h, if_pos he]
  have hpope : ∀ h1 : pyIn "how old is " (pyLower q) = false,
      ∀ h2 : pyIn "what is the population of " (pyLower q) = true,
      ∀ he : pyStrip (pyReplace (pyLower q) "what is the population of " "") = "",
      (ask client parseDate today q).queries = [] := by
    intro h1 h2 he
    rw [ask_pop_branch client parseDate today q h1 h2, if_pos he]
  have hnone : ∀ h1 : pyIn "how old is " (pyLower q) = false,
      ∀ h2 : pyIn "what is the population of " (pyLower q) = false,
      (ask client parseDate today q).queries = [] := by
    intro h1 h2
    simp [ask, h1, h2]
  refine ⟨?_, hage, hpop, hagee, hpope, hnone⟩
  rcases Bool.eq_false_or_eq_true (pyIn "how old is " (pyLower q)) with h1 | h1
  · by_cases he : pyStrip (pyReplace (pyLower q) "how old is " "") = ""
    · rw [hagee h1 he]
      simp
    · rw [hage h1 he]
      simp
  · rcases Bool.eq_false_or_eq_true (pyIn "what is the population of " (pyLower q)) with h2 | h2
    · by_cases he : pyStrip (pyReplace (pyLower q) "what is the population of " "") = ""
      · rw [hpope h1 h2 he]
        simp
      · rw [hpop h1 h2 he]
        simp
    · rw [hnone h1 h2]
      simp

theorem query_count_per_ask_witness :
    (ask emptyClient (parseFixed epochDate) ⟨2024, 1, 1⟩ "how old is tony blair").queries
        = [person_query (pyTitle (pyStrip
            (pyReplace (pyLower "how old is tony blair") "how old is " "")))]
      ∧ (ask emptyClient (parseFixed epochDate) ⟨2024, 1, 1⟩
            "what is the population of london").queries
        = [city_query (pyTitle (pyStrip (pyReplace (pyLower "what is the population of london")
            "what is the population of " "")))]
      ∧ (ask emptyClient (parseFixed epochDate) ⟨2024, 1, 1⟩ "how old is ").queries = []
      ∧ (ask emptyClient (parseFixed epochDate) ⟨2024, 1, 1⟩
          "what is the population of ").queries = []
      ∧ (ask emptyClient (parseFixed epochDate) ⟨2024, 1, 1⟩ "what is area of Berlin").queries = []
      ∧ (ask emptyClient (parseFixed epochDate) ⟨2024, 1, 1⟩
          "what is area of Berlin").queries.length ≤ 1 :=
  ⟨(query_count_per_ask emptyClient (parseFixed epochDate) ⟨2024, 1, 1⟩
      "how old is tony blair").2.1 (by decide) (by decide),
   (query_count_per_ask emptyClient (parseFixed epochDate) ⟨2024, 1, 1⟩
      "what is the population of london").2.2.1 (by decide) (by decide) (by decide),
   (query_count_per_ask emptyClient (parseFixed epochDate) ⟨2024, 1, 1⟩
      "how old is ").2.2.2.1 (by decide) (by decide),
   (query_count_per_ask emptyClient (parseFixed epochDate) ⟨2024, 1, 1⟩
      "what is the population of ").2.2.2.2.1 (by decide) (by decide) (by decide),
   (query_count_per_ask emptyClient (parseFixed epochDate) ⟨2024, 1, 1⟩
      "what is area of Berlin").2.2.2.2.2 (by decide) (by decide),
   (query_count_per_ask emptyClient (parseFixed epochDate) ⟨2024, 1, 1⟩
      "what is area of Berlin").1⟩

theorem query_count_counterexample :
    (ask emptyClient (parseFixed epochDate) ⟨2024, 1, 1⟩ "what is area of Berlin").queries.length
        = 0
      ∧ ¬ (ask emptyClient (parseFixed epochDate) ⟨2024, 1, 1⟩
            "what is area of Berlin").queries.length = 1 :=
  ⟨rfl, by decide⟩

/-- Claim C8: when a prefix matches but the remainder after prefix removal
is empty or whitespace-only, `ask` fails with the missing-subject message of
that question kind and issues no query. -/
theorem missing_subject_before_query (client : String → SparqlResults)
    (parseDate : String → Date) (today : Date) (q : String) :
    (pyIn "how old is " (pyLower q) = true →
        pyStrip (pyReplace (pyLower q) "how old is " "") = "" →
        ask client parseDate today q = ⟨[], .error (.valueError "Missing person\x27s name")⟩)
      ∧ (pyIn "how old is " (pyLower q) = false →
          pyIn "what is the population of " (pyLower q) = true →
          pyStrip (pyReplace (pyLower q) "what is the population of " "") = "" →
          ask client parseDate today q = ⟨[], .error (.valueError "Missing city name")⟩) := by
  constructor
  · intro h he
    rw [ask_age_branch client parseDate today q h, if_pos he]
  · intro h1 h2 he
    rw [ask_pop_branch client parseDate today q h1 h2, if_pos he]

theorem missing_subject_before_query_witness :
    ask emptyClient (parseFixed epochDate) ⟨2024, 1, 1⟩ "how old is "
        = ⟨[], .error (.valueError "Missing person\x27s name")⟩
      ∧ ask emptyClient (parseFixed epochDate) ⟨2024, 1, 1⟩ "what is the population of   "
        = ⟨[], .error (.valueError "Missing city name")⟩ :=
  ⟨(missing_subject_before_query emptyClient (parseFixed epochDate) ⟨2024, 1, 1⟩
      "how old is ").1 (by decide) (by decide),
   (missing_subject_before_query emptyClient (parseFixed epochDate) ⟨2024, 1, 1⟩
      "what is the population of   ").2 (by decide) (by decide) (by decide)⟩

/-- Claim C9: when the lowercased input contains neither prefix, `ask` fails
with the invalid-question message echoing the original input unmodified, and
issues no query. -/
theorem unrecognized_question_echo (client : String → SparqlResults)
    (parseDate : String → Date) (today : Date) (q : String)
    (h1 : pyIn "how old is " (pyLower q) = false)
    (h2 : pyIn "what is the population of " (pyLower q) = false) :
    ask client parseDate today q = ⟨[], .error (.valueError ("Invalid question: " ++ q))⟩ := by
  simp [ask, h1, h2]

theorem unrecognized_question_echo_witness :
    ask emptyClient (parseFixed epochDate) ⟨2024, 1, 1⟩ "what is area of Berlin"
      = ⟨[], .error (.valueError ("Invalid question: " ++ "what is area of Berlin"))⟩ :=
  unrecognized_question_echo emptyClient (parseFixed epochDate) ⟨2024, 1, 1⟩
    "what is area of Berlin" (by decide) (by decide)

/-- Claim C10: when the lowercased input contains both prefixes, `ask`
dispatches to the age branch (its handler or its missing-subject failure),
never to the population handler. -/
theorem age_branch_precedence (client : String → SparqlResults)
    (parseDate : String → Date) (today : Date) (q : String)
    (h1 : pyIn "how old is " (pyLower q) = true)
    (h2 : pyIn "what is the population of " (pyLower q) = true) :
    ask client parseDate today q =
      if pyStrip (pyReplace (pyLower q) "how old is " "") = "" then
        ⟨[], .error (.valueError "Missing person\x27s name")⟩
      else
        get_age client parseDate today
          (pyTitle (pyStrip (pyReplace (pyLower q) "how old is " ""))) :=
  ask_age_branch client parseDate today q h1

theorem age_branch_precedence_witness :
    ask emptyClient (parseFixed epochDate) ⟨2024, 1, 1⟩
        "what is the population of how old is x"
      = (if pyStrip (pyReplace (pyLower "what is the population of how old is x")
            "how old is " "") = "" then
          ⟨[], .error (.valueError "Missing person\x27s name")⟩
        else
          get_age emptyClient (parseFixed epochDate) ⟨2024, 1, 1⟩
            (pyTitle (pyStrip (pyReplace (pyLower "what is the population of how old is x")
              "how old is " "")))) :=
  age_branch_precedence emptyClient (parseFixed epochDate) ⟨2024, 1, 1⟩
    "what is the population of how old is x" (by decide) (by decide)

end Wikidata
